import Mathlib

/-!
Verification development for waltz (src/waltz/resources.py).

The Python module is shallowly embedded: JSON/YAML values become the
inductive `Value`, Python dictionaries become ordered association lists
with Python dict semantics (`dGet`/`dSet`/`dDel`/`dUpdate`), and Python
exceptions become the `Except PyErr` monad.  External collaborators that
the module imports from other files (the Canvas HTTP client `get`, the
`glob` module, `make_safe_filename`, `make_datetime_filename`, the
markdown converters `h2m`/`m2h` and the friendly-date converters) are
modelled as explicit function parameters, since the module treats them
as black boxes.
-/

/-- JSON/YAML-shaped Python values as they flow through resources.py:
strings, numbers, booleans, None, lists and dicts (ordered mappings). -/
inductive Value where
  | str (s : String)
  | int (n : Int)
  | bool (b : Bool)
  | null
  | list (xs : List Value)
  | obj (fields : List (String × Value))

/-- The exceptions resources.py raises.  `WaltzException` subclasses are
modelled with one constructor per distinct raise site, carrying the data
interpolated into the corresponding message string. -/
inductive WaltzError where
  /-- raised by ResourceID._parse_type: "Category {} not found (full Resource ID: {!r})". -/
  | unknownCategory (category : String) (raw : String)
  /-- raised by ResourceID._get_canvas_data: "Unknown command: " + repr(command). -/
  | unknownCommand (command : String)
  /-- raised by ResourceID._new_canvas_resource: "Resource {} already exists:" plus the indented title list. -/
  | alreadyExists (name : Option String) (titles : List Value)
  /-- WaltzNoResourceFound from ResourceID._find_canvas_resource: "No {} resource found for: {}". -/
  | notFound (canvas_name : String) (raw : String)
  /-- WaltzNoResourceFound from ResourceID._find_canvas_resource: "Ambiguous {} resource ID: {}" plus the indented title list. -/
  | ambiguous (canvas_name : String) (raw : String) (titles : List Value)
  /-- "Errors in Canvas data: " + repr(...), raised when an API response carries errors. -/
  | canvasErrors

/-- Python-level errors: Waltz exceptions plus the builtin exceptions the
module can run into (KeyError from dict indexing, AttributeError from
getattr, NameError from an undefined variable, IndexError from string
indexing, ValueError from unpacking, TypeError from indexing a
non-container). -/
inductive PyErr where
  | waltz (e : WaltzError)
  | keyError (key : String)
  | attributeError (name : String)
  | nameError (name : String)
  | indexError (msg : String)
  | valueError (msg : String)
  | typeError (msg : String)

/-- Python dict lookup `d[k]` on an ordered association list (first
matching key wins; lists built by `dSet` keep keys unique). -/
def dGet {α : Type} : List (String × α) → String → Option α
  | [], _ => none
  | (k', v) :: rest, k => if k' = k then some v else dGet rest k

/-- Python dict assignment `d[k] = v`: replace the value in place when
the key exists, otherwise append the new pair at the end (insertion
order preserved, as for Python dicts). -/
def dSet {α : Type} : List (String × α) → String → α → List (String × α)
  | [], k, v => [(k, v)]
  | (k', v') :: rest, k, v => if k' = k then (k, v) :: rest else (k', v') :: dSet rest k v

/-- Python `del d[k]` / the removal part of `d.pop(k)`: drop the first
pair with the given key. -/
def dDel {α : Type} : List (String × α) → String → List (String × α)
  | [], _ => []
  | (k', v) :: rest, k => if k' = k then rest else (k', v) :: dDel rest k

/-- Python `d.update(e)`: fold the entries of `e` into `d`, overwriting
existing keys in place and appending new ones. -/
def dUpdate {α : Type} (d e : List (String × α)) : List (String × α) :=
  e.foldl (fun acc kv => dSet acc kv.1 kv.2) d

/-- Lift a dict lookup into the exception monad: Python raises KeyError
on a missing key. -/
def req {α : Type} (o : Option α) (k : String) : Except PyErr α :=
  match o with
  | some v => .ok v
  | none => .error (.keyError k)

/-- Python `d.pop(k)`: the value plus the dict without the key; KeyError
when absent. -/
def reqPop (d : List (String × Value)) (k : String) :
    Except PyErr (Value × List (String × Value)) :=
  match dGet d k with
  | some v => .ok (v, dDel d k)
  | none => .error (.keyError k)

/-- View a value as a dict; Python raises when dict methods are called
on a non-mapping. -/
def asObj (v : Value) : Except PyErr (List (String × Value)) :=
  match v with
  | .obj fields => .ok fields
  | _ => .error (.typeError "expected a mapping")

/-- Character-list prefix test, the model of Python str.startswith. -/
def charsAhead : List Char → List Char → Bool
  | [], _ => true
  | _ :: _, [] => false
  | c :: cs, d :: ds => c == d && charsAhead cs ds

/-- Python `s.startswith(pre)`. -/
def pyStartsWith (s pre : String) : Bool :=
  charsAhead pre.data s.data

/-- Python `s.lower()` for the ASCII category names used by the module. -/
def pyLower (s : String) : String :=
  String.mk (s.data.map Char.toLower)

/-- Split a character list at the first occurrence of the separator. -/
def splitFirst (sep : Char) : List Char → Option (List Char × List Char)
  | [] => none
  | c :: cs =>
    if c == sep then some ([], cs)
    else (splitFirst sep cs).map (fun p => (c :: p.1, p.2))

/-- Python `raw.split(sep, 1)` unpacked into exactly two names: a
ValueError when the separator does not occur. -/
def pySplit1 (raw : String) (sep : Char) : Except PyErr (String × String) :=
  match splitFirst sep raw.data with
  | some (a, b) => .ok (String.mk a, String.mk b)
  | none => .error (.valueError "not enough values to unpack")

/-- Class-level metadata shared by the Resource variants (lines 252-255
and the per-variant class attributes): category aliases, remote
collection name, on-disk folder, remote title/id field names and the
on-disk file extension. -/
structure ResourceType where
  category_names : List String
  canvas_name : String
  canonical_category : String
  canvas_title_field : String
  canvas_id_field : String
  extension : String
  deriving DecidableEq

/-- Page (lines 370-376). -/
def Page : ResourceType :=
  { category_names := ["page", "pages"]
    canvas_name := "pages"
    canonical_category := "pages"
    canvas_title_field := "title"
    canvas_id_field := "url"
    extension := ".md" }

/-- Outcome (lines 402-408). -/
def Outcome : ResourceType :=
  { category_names := ["outcome", "outcomes"]
    canvas_name := "outcomes"
    canonical_category := "outcomes"
    canvas_title_field := "title"
    canvas_id_field := "id"
    extension := ".yaml" }

/-- Assignment (lines 437-443). -/
def Assignment : ResourceType :=
  { category_names := ["assignments", "assignment", "a"]
    canvas_name := "assignments"
    canonical_category := "assignments"
    canvas_title_field := "name"
    canvas_id_field := "id"
    extension := ".yaml" }

/-- Modelled from the spec: the Quiz variant lives in waltz/quizzes.py,
which is not among the sources here (resources.py pulls it in with
`from waltz.quizzes import *`).  The spec describes it as the fourth
variant with category tag "quiz" and the same descriptor pattern as the
other variants (remote collection and folder "quizzes", a title/id
field pair, a YAML extension), so it is modelled with the alias pattern
of Page and Outcome. -/
def Quiz : ResourceType :=
  { category_names := ["quiz", "quizzes"]
    canvas_name := "quizzes"
    canonical_category := "quizzes"
    canvas_title_field := "title"
    canvas_id_field := "id"
    extension := ".yaml" }

/-- Line 507: `ALL_RESOURCES = [Quiz, Page, Assignment]`.  Note that
Outcome is not in the list even though it defines category_names. -/
def ALL_RESOURCES : List ResourceType := [Quiz, Page, Assignment]

/-- Lines 508-511: the registry dict, built by iterating ALL_RESOURCES
and inserting every category alias of each variant. -/
def RESOURCE_CATEGORIES : List (String × ResourceType) :=
  ALL_RESOURCES.foldl
    (fun acc rt => rt.category_names.foldl (fun acc c => dSet acc c rt) acc) []

/-- External collaborators of the resolver, passed in explicitly: the
Canvas client `get` used for searches (endpoint, course name, optional
search term) and direct fetches (endpoint, course name), the recursive
`glob` (pattern to list of matching paths) and `make_safe_filename`. -/
structure Env where
  search : String → String → Option String → List Value
  fetch : String → String → Value
  glob : String → List String
  make_safe_filename : Value → String

/-- Python string interpolation of an optional name (None prints as
"None"). -/
def pyStr (name : Option String) : String :=
  match name with
  | some s => s
  | none => "None"

/-- Python `"errors" in results` where `results` is the list returned
by a paginated search: true only when some element is the literal
string "errors". -/
def listHasErrorsString (results : List Value) : Bool :=
  results.any fun r =>
    match r with
    | .str s => decide (s = "errors")
    | _ => false

/-- Python `json_data[field]` on a JSON record: KeyError when the field
is missing, TypeError when the value is not a mapping. -/
def identifyField (field : String) (json_data : Value) : Except PyErr Value :=
  match json_data with
  | .obj fields => req (dGet fields field) field
  | _ => .error (.typeError "value is not subscriptable")

/-- Resource.identify_title (lines 332-334) dispatched on a variant. -/
def ResourceType.identify_title (rt : ResourceType) : Value → Except PyErr Value :=
  identifyField rt.canvas_title_field

/-- Resource.identify_id (lines 336-338) dispatched on a variant. -/
def ResourceType.identify_id (rt : ResourceType) : Value → Except PyErr Value :=
  identifyField rt.canvas_id_field

/-- Resource.get_names_from_json (lines 350-352) dispatched on a
variant: map identify_title over the result rows. -/
def ResourceType.get_names_from_json (rt : ResourceType) (rows : List Value) :
    Except PyErr (List Value) :=
  rows.mapM rt.identify_title

/-- The base Resource class attribute `canvas_title_field = 'title'`
(line 254). -/
def Resource.canvas_title_field : String := "title"

/-- `Resource.get_names_from_json(...)` called on the BASE class, as
ResourceID._new_canvas_resource does on line 62: identify_title then
resolves against the base class field 'title', not the field of the
variant being resolved. -/
def Resource.get_names_from_json (rows : List Value) : Except PyErr (List Value) :=
  rows.mapM (identifyField Resource.canvas_title_field)

/-- ResourceID._parse_type (lines 40-53): split the raw identifier on
the first '/', lowercase the category, look it up in the registry
(UnknownCategory when absent), then either mark the wildcard or split
the remainder into a one-character command and the name. -/
def ResourceID.parse_type (raw : String) :
    Except PyErr (String × String × Option String × ResourceType) := do
  let (category0, action) ← pySplit1 raw '/'
  let category := pyLower category0
  let rt ← match dGet RESOURCE_CATEGORIES category with
    | some rt => Except.ok rt
    | none => Except.error (.waltz (.unknownCategory category raw))
  match action.data with
  | ['*'] => return (category, "*", none, rt)
  | [] => .error (.indexError "string index out of range")
  | c :: cs => return (category, String.mk [c], some (String.mk cs), rt)

/-- Resource.find_resource_on_canvas (lines 299-305): search the
collection by name; a result list containing the literal string
"errors" is treated as an API failure. -/
def Resource.find_resource_on_canvas (env : Env) (rt : ResourceType)
    (course : String) (name : Option String) : Except PyErr (List Value) :=
  let results := env.search rt.canvas_name course name
  if listHasErrorsString results then .error (.waltz .canvasErrors)
  else .ok results

/-- Resource.get_resource_on_canvas (lines 307-314): direct fetch of
`{canvas_name}/{name}`; a response dict carrying an "errors" key fails
with WaltzNoResourceFound. -/
def Resource.get_resource_on_canvas (env : Env) (rt : ResourceType)
    (course : String) (name : Option String) : Except PyErr Value :=
  let data := env.fetch (rt.canvas_name ++ "/" ++ pyStr name) course
  match data with
  | .obj fields =>
    if (dGet fields "errors").isSome then .error (.waltz .canvasErrors)
    else .ok data
  | .list xs =>
    if listHasErrorsString xs then .error (.waltz .canvasErrors)
    else .ok data
  | _ => .ok data

/-- ResourceID._new_canvas_resource (lines 55-63): a create command
requires that no remote match exists; when matches exist it raises
AlreadyExists, listing titles via the BASE class get_names_from_json
(the source calls `Resource.get_names_from_json`, not the variant
method), and otherwise returns the sentinel True. -/
def ResourceID.new_canvas_resource (env : Env) (rt : ResourceType)
    (course : String) (name : Option String) : Except PyErr Value := do
  let potentials ← Resource.find_resource_on_canvas env rt course name
  if potentials.isEmpty then
    return Value.bool true
  else do
    let titles ← Resource.get_names_from_json potentials
    .error (.waltz (.alreadyExists name titles))

/-- ResourceID._find_canvas_resource (lines 65-77): a search command
requires exactly one remote match; zero matches raise NotFound, more
than one raise Ambiguous listing the matching titles (via the variant
get_names_from_json), one match is returned. -/
def ResourceID.find_canvas_resource (env : Env) (rt : ResourceType)
    (course : String) (name : Option String) (raw : String) : Except PyErr Value := do
  let potentials ← Resource.find_resource_on_canvas env rt course name
  match potentials with
  | [] => .error (.waltz (.notFound rt.canvas_name raw))
  | [p] => .ok p
  | ps => do
    let titles ← rt.get_names_from_json ps
    .error (.waltz (.ambiguous rt.canvas_name raw titles))

/-- The command dispatch of ResourceID._get_canvas_data (lines 87-94):
'+' creates, '?' searches, ':' fetches directly, anything else raises
UnknownCommand. -/
def ResourceID.canvas_lookup (env : Env) (course : String) (rt : ResourceType)
    (command : String) (name : Option String) (raw : String) : Except PyErr Value :=
  if pyStartsWith command "+" then ResourceID.new_canvas_resource env rt course name
  else if pyStartsWith command "?" then ResourceID.find_canvas_resource env rt course name raw
  else if pyStartsWith command ":" then Resource.get_resource_on_canvas env rt course name
  else .error (.waltz (.unknownCommand command))

/-- ResourceID._parse_canvas_data (lines 97-103): the sentinel True
yields the given name as canonical title and no id (None); otherwise
title and id are read from the remote record using the variant field
names. -/
def ResourceID.parse_canvas_data (rt : ResourceType) (name : Option String)
    (canvas_data : Value) : Except PyErr (Value × Value) :=
  match canvas_data with
  | .bool true =>
    .ok (match name with
         | some s => Value.str s
         | none => Value.null,
        Value.null)
  | d => do
    let title ← rt.identify_title d
    let id ← rt.identify_id d
    return (title, id)

/-- Resource.find_resource_on_disk (lines 316-326): recursive glob for
the safe filename under the canonical subfolder.  Zero matches
synthesize a fresh path directly under the subfolder (new on disk), one
match is used as-is.  With more than one match the source tries to
raise ValueError but evaluates `self.canonical_category` inside a
classmethod where `self` is undefined, so the error actually raised is
NameError for the name "self". -/
def Resource.find_resource_on_disk (rt : ResourceType) (globFn : String → List String)
    (root filename : String) : Except PyErr (Bool × String) :=
  let search_path := root ++ "/" ++ rt.canonical_category ++ "/**/" ++ filename
  match globFn search_path with
  | [] => .ok (true, root ++ "/" ++ rt.canonical_category ++ "/" ++ filename)
  | [p] => .ok (false, p)
  | _ => .error (.nameError "self")

/-- The resolved identifier: every field ResourceID.__init__ stores. -/
structure ResourceIDState where
  raw : String
  category : String
  command : String
  name : Option String
  resource_type : ResourceType
  canvas_data : Value
  canvas_title : Value
  canvas_id : Value
  filename : String
  is_new : Bool
  path : String

/-- ResourceID.__init__ (lines 32-38 with the helpers 82-109):
eagerly parse the raw identifier, resolve the remote data per the
command, derive title/id, and resolve the on-disk path from the safe
filename. -/
def ResourceID.resolve (env : Env) (root course raw : String) :
    Except PyErr ResourceIDState := do
  let (category, command, name, rt) ← ResourceID.parse_type raw
  let canvas_data ← ResourceID.canvas_lookup env course rt command name raw
  let (canvas_title, canvas_id) ← ResourceID.parse_canvas_data rt name canvas_data
  let filename := env.make_safe_filename canvas_title ++ rt.extension
  let (is_new, path) ← Resource.find_resource_on_disk rt env.glob root filename
  return { raw := raw, category := category, command := command, name := name,
           resource_type := rt, canvas_data := canvas_data,
           canvas_title := canvas_title, canvas_id := canvas_id,
           filename := filename, is_new := is_new, path := path }

/-- An in-memory Resource instance: its dynamically assigned attributes
plus the catch-all bag assigned at the end of __init__. -/
structure ResourceObj where
  attrs : List (String × Value)
  unmatched_parameters : List (String × Value)

/-- Resource.__init__ (lines 257-261): iterate over a snapshot of the
keyword arguments, setattr each one and delete it from the kwargs dict,
then store whatever is left of the kwargs dict as unmatched_parameters.
The two components are folds over the same item list: setattr is a dict
assignment into the attribute table, and the deletions run on the
kwargs dict itself. -/
def Resource.init (kwargs : List (String × Value)) : ResourceObj :=
  { attrs := kwargs.foldl (fun a kv => dSet a kv.1 kv.2) []
    unmatched_parameters := kwargs.foldl (fun r kv => dDel r kv.1) kwargs }

/-- External conversion collaborators used by the Assignment
conversions: h2m/m2h from waltz.html_markdown_utilities and the
friendly-date pair from waltz.utilities, all imported from files
outside this module. -/
structure ConvEnv where
  h2m : Value → Value
  m2h : Value → Value
  to_friendly_date : Value → Value
  from_friendly_date : Value → Value

/-- Python `getattr`: AttributeError when the attribute is missing. -/
def attrGet (self : List (String × Value)) (k : String) : Except PyErr Value :=
  match dGet self k with
  | some v => .ok v
  | none => .error (.attributeError k)

/-- Assignment.to_disk (lines 445-470): build the nested on-disk
mapping with top-level name, url (from html_url) and description
(markdownified), and a settings section grouping the flags, the
submission subsection (extensions only when the attribute exists, then
submission_types), the timing subsection (friendly dates) and the
secrecy subsection. -/
def Assignment.to_disk (env : ConvEnv) (self : List (String × Value)) :
    Except PyErr Value := do
  let nm ← attrGet self "name"
  let url ← attrGet self "html_url"
  let pub ← attrGet self "published"
  let pts ← attrGet self "points_possible"
  let gt ← attrGet self "grading_type"
  let subm ← match dGet self "allowed_extensions" with
    | some ext => do
      let st ← attrGet self "submission_types"
      Except.ok [("extensions", ext), ("submission_types", st)]
    | none => do
      let st ← attrGet self "submission_types"
      Except.ok [("submission_types", st)]
  let due ← attrGet self "due_at"
  let unlock ← attrGet self "unlock_at"
  let lock ← attrGet self "lock_at"
  let an1 ← attrGet self "anonymize_students"
  let an2 ← attrGet self "anonymous_grading"
  let desc ← attrGet self "description"
  return Value.obj
    [("name", nm),
     ("url", url),
     ("settings", .obj
       [("published", pub),
        ("points_possible", pts),
        ("grading_type", gt),
        ("submission", .obj subm),
        ("timing", .obj
          [("due_at", env.to_friendly_date due),
           ("unlock_at", env.to_friendly_date unlock),
           ("lock_at", env.to_friendly_date lock)]),
        ("secrecy", .obj
          [("anonymize_students", an1),
           ("anonymous_grading", an2)])]),
     ("description", env.h2m desc)]

/-- Assignment.from_disk (lines 487-499): htmlify the description,
flatten the timing/secrecy/submission subsections into settings and
settings into the top level (the source mutates the nested dict held by
the top-level key in place; here the nested dict is popped first,
reshaped, and merged back, which yields the same final mapping),
convert the friendly dates back, rename url to html_url, and construct
the Resource from the flattened keyword data plus the course. -/
def Assignment.from_disk (env : ConvEnv) (course : Value)
    (yaml_data : List (String × Value)) : Except PyErr ResourceObj := do
  let desc ← req (dGet yaml_data "description") "description"
  let yd := dSet yaml_data "description" (env.m2h desc)
  let (settingsV, yd) ← reqPop yd "settings"
  let s ← asObj settingsV
  let (timingV, s) ← reqPop s "timing"
  let timing ← asObj timingV
  let s := dUpdate s timing
  let (secrecyV, s) ← reqPop s "secrecy"
  let secrecy ← asObj secrecyV
  let s := dUpdate s secrecy
  let (submissionV, s) ← reqPop s "submission"
  let submission ← asObj submissionV
  let s := dUpdate s submission
  let yd := dUpdate yd s
  let due ← req (dGet yd "due_at") "due_at"
  let yd := dSet yd "due_at" (env.from_friendly_date due)
  let unlock ← req (dGet yd "unlock_at") "unlock_at"
  let yd := dSet yd "unlock_at" (env.from_friendly_date unlock)
  let lock ← req (dGet yd "lock_at") "lock_at"
  let yd := dSet yd "lock_at" (env.from_friendly_date lock)
  let (urlV, yd) ← reqPop yd "url"
  let yd := dSet yd "html_url" urlV
  return Resource.init (yd ++ [("course", course)])

/-- from_disk applied to the to_disk output of an Assignment, the
composite the round-trip claim is about. -/
def Assignment.round_trip (env : ConvEnv) (course : Value)
    (self : List (String × Value)) : Except PyErr ResourceObj := do
  let diskV ← Assignment.to_disk env self
  let fields ← asObj diskV
  Assignment.from_disk env course fields

/-- The filesystem state the backup subsystem touches: live files (path
to contents), the backup files written so far (path to the bytes the
gzip stream compresses), a counter of backup write operations, and a
clock standing in for make_datetime_filename (an external utility that
produces a fresh timestamp string per call). -/
structure FS where
  files : List (String × String)
  backups : List (String × String)
  backup_writes : Nat
  clock : Nat

/-- The timestamp string for the current clock tick. -/
def datetimeName (n : Nat) : String :=
  "ts" ++ toString n

/-- Course.backup_resource (lines 225-240): compute the timestamped
backup path under `<root>/_backups/<category>/<filename>/`; when the
live file does not exist return False without writing; when its
contents equal the new version byte-for-byte return False without
writing; otherwise gzip the old contents to the backup path and return
True. -/
def Course.backup_resource (root : String) (rt : ResourceType)
    (filename path new_version : String) (fs : FS) : Bool × FS :=
  let backup_path := root ++ "/_backups/" ++ rt.canonical_category ++ "/" ++ filename
    ++ "/" ++ datetimeName fs.clock ++ rt.extension ++ ".gz"
  let fs' := { fs with clock := fs.clock + 1 }
  match dGet fs'.files path with
  | none => (false, fs')
  | some contents =>
    if contents = new_version then (false, fs')
    else (true, { fs' with backups := dSet fs'.backups backup_path contents,
                           backup_writes := fs'.backup_writes + 1 })

/-- Course.backup_json (lines 216-223): compute the timestamped
`.json.gz` backup path under the same directory and write the JSON dump
there unconditionally; there is no comparison with anything on disk.
The json_text parameter is the serialized form json.dump would emit. -/
def Course.backup_json (root : String) (rt : ResourceType)
    (filename json_text : String) (fs : FS) : FS :=
  let backup_path := root ++ "/_backups/" ++ rt.canonical_category ++ "/" ++ filename
    ++ "/" ++ datetimeName fs.clock ++ ".json.gz"
  { fs with clock := fs.clock + 1,
            backups := dSet fs.backups backup_path json_text,
            backup_writes := fs.backup_writes + 1 }

/-- The file write at the end of Course.to_disk (lines 160-166): after
backing up, the resolved path is overwritten with the serialized
resource data. -/
def Course.write_resource_file (path contents : String) (fs : FS) : FS :=
  { fs with files := dSet fs.files path contents }

/-- Outcome.load_outcome_by_name (lines 411-417): the template filter
closure.  When the course has no cache entry yet, load_all populates it
(load_all scans outcome bank files on disk through glob and yaml, both
external; its resulting name-to-outcome mapping is passed in as
load_all_result).  The filter then returns
`CACHE[course].get(outcome_name, outcome_name)`: the cached outcome
when present, otherwise the name string itself. -/
def Outcome.load_outcome_by_name {α : Type}
    (cache : List (String × List (String × α))) (load_all_result : List (String × α))
    (course_name outcome_name : String) :
    Except PyErr ((α ⊕ String) × List (String × List (String × α))) := do
  let cache' := if (dGet cache course_name).isSome then cache
                else dSet cache course_name load_all_result
  let course_cache ← req (dGet cache' course_name) course_name
  return (match dGet course_cache outcome_name with
          | some o => Sum.inl o
          | none => Sum.inr outcome_name,
         cache')

/-! Generic lemmas about the dict operations. -/

theorem dGet_dSet_self {α : Type} (d : List (String × α)) (k : String) (v : α) :
    dGet (dSet d k v) k = some v := by
  induction d with
  | nil => simp [dGet, dSet]
  | cons kv rest ih =>
    obtain ⟨k', v'⟩ := kv
    by_cases h : k' = k
    · simp [dGet, dSet, h]
    · simp [dGet, dSet, h, ih]

theorem dGet_dSet_ne {α : Type} (d : List (String × α)) {k k' : String} (v : α)
    (h : k ≠ k') : dGet (dSet d k v) k' = dGet d k' := by
  induction d with
  | nil => simp [dGet, dSet, h]
  | cons kv rest ih =>
    obtain ⟨k₀, v₀⟩ := kv
    by_cases h0 : k₀ = k
    · subst h0
      simp [dGet, dSet, h]
    · simp only [dSet, if_neg h0, dGet]
      by_cases h1 : k₀ = k'
      · simp [h1]
      · simp [h1, ih]

theorem dGet_eq_none_of_not_mem {α : Type} (d : List (String × α)) (k : String)
    (h : k ∉ d.map Prod.fst) : dGet d k = none := by
  induction d with
  | nil => rfl
  | cons kv rest ih =>
    obtain ⟨k', v'⟩ := kv
    simp only [List.map_cons, List.mem_cons] at h
    push_neg at h
    simp [dGet, Ne.symm h.1, ih h.2]

theorem dGet_foldl_dSet {α : Type} (l : List (String × α))
    (hnd : (l.map Prod.fst).Nodup) (a₀ : List (String × α)) (k : String) :
    dGet (l.foldl (fun a kv => dSet a kv.1 kv.2) a₀) k =
      match dGet l k with
      | some v => some v
      | none => dGet a₀ k := by
  induction l generalizing a₀ with
  | nil => rfl
  | cons kv rest ih =>
    obtain ⟨k₁, v₁⟩ := kv
    simp only [List.map_cons, List.nodup_cons] at hnd
    rw [List.foldl_cons, ih hnd.2]
    by_cases h : k₁ = k
    · subst h
      rw [dGet_eq_none_of_not_mem rest k₁ hnd.1]
      simp [dGet, dGet_dSet_self]
    · simp [dGet, h, dGet_dSet_ne a₀ v₁ h]

theorem foldl_dDel_self {α : Type} (l : List (String × α)) :
    l.foldl (fun r kv => dDel r kv.1) l = [] := by
  induction l with
  | nil => rfl
  | cons kv rest ih =>
    obtain ⟨k, v⟩ := kv
    rw [List.foldl_cons]
    show rest.foldl (fun r kv => dDel r kv.1) (dDel ((k, v) :: rest) k) = []
    rw [show dDel ((k, v) :: rest) k = rest by simp [dDel]]
    exact ih

/-! Claim C1: resolution of search ('?') identifiers. -/

/-- Claim C1: for every identifier whose command is search ('?'),
resolving it queries the remote API by name and requires exactly one
match: zero matches raise NotFound naming the resource type and the raw
identifier, more than one match raises Ambiguous listing all matching
titles, and exactly one match makes that single result the resolved
remote data. -/
theorem search_command_requires_unique_match (env : Env) (rt : ResourceType)
    (course raw : String) (name : Option String) (potentials : List Value)
    (hp : env.search rt.canvas_name course name = potentials)
    (herr : listHasErrorsString potentials = false) :
    (potentials = [] →
      ResourceID.canvas_lookup env course rt "?" name raw =
        .error (.waltz (.notFound rt.canvas_name raw))) ∧
    (∀ p, potentials = [p] →
      ResourceID.canvas_lookup env course rt "?" name raw = .ok p) ∧
    (∀ titles, 2 ≤ potentials.length →
      rt.get_names_from_json potentials = .ok titles →
      ResourceID.canvas_lookup env course rt "?" name raw =
        .error (.waltz (.ambiguous rt.canvas_name raw titles))) := by
  have hlookup : ResourceID.canvas_lookup env course rt "?" name raw =
      ResourceID.find_canvas_resource env rt course name raw := rfl
  have hfound : Resource.find_resource_on_canvas env rt course name = .ok potentials := by
    simp [Resource.find_resource_on_canvas, hp, herr]
  refine ⟨?_, ?_, ?_⟩
  · intro h
    rw [hlookup]
    unfold ResourceID.find_canvas_resource
    rw [hfound, h]
    rfl
  · intro p h
    rw [hlookup]
    unfold ResourceID.find_canvas_resource
    rw [hfound, h]
    rfl
  · intro titles hlen hnames
    rw [hlookup]
    unfold ResourceID.find_canvas_resource
    rw [hfound]
    match potentials, hlen, hnames with
    | a :: b :: rest, _, hnames =>
      show (do
        let titles ← rt.get_names_from_json (a :: b :: rest)
        Except.error (.waltz (.ambiguous rt.canvas_name raw titles)) :
          Except PyErr Value) = _
      rw [hnames]
      rfl

/-- A one-match remote search result for the C1 witness. -/
def pageRecordAlpha : Value := .obj [("title", .str "Alpha"), ("url", .str "alpha-page")]

/-- A stub environment whose search always returns the single Alpha
page. -/
def envSearchOnePage : Env :=
  { search := fun _ _ _ => [pageRecordAlpha]
    fetch := fun _ _ => .null
    glob := fun _ => []
    make_safe_filename := fun _ => "file" }

/-- Witness for claim C1: with exactly one remote match, the search
lookup resolves to that record. -/
theorem search_command_requires_unique_match_witness :
    ResourceID.canvas_lookup envSearchOnePage "CS101" Page "?" (some "Alpha") "page/?Alpha" =
      .ok pageRecordAlpha :=
  (search_command_requires_unique_match envSearchOnePage Page "CS101" "page/?Alpha"
    (some "Alpha") [pageRecordAlpha] rfl rfl).2.1 pageRecordAlpha rfl

/-! Claim C2: resolution of create ('+') identifiers. -/

/-- A stub environment whose search returns one matching assignment, a
record whose title lives in the Assignment title field "name" (Canvas
assignments carry no "title" field). -/
def envSearchOneAssignment : Env :=
  { search := fun _ _ _ => [.obj [("name", .str "Homework 1"), ("id", .int 1)]]
    fetch := fun _ _ => .null
    glob := fun _ => []
    make_safe_filename := fun _ => "file" }

/-- A stub environment whose search finds nothing. -/
def envSearchEmpty : Env :=
  { search := fun _ _ _ => []
    fetch := fun _ _ => .null
    glob := fun _ => []
    make_safe_filename := fun _ => "file" }

/-- Claim C2 (code bug, evaluated at the failing input): resolving
"assignment/+Homework 1" when the remote search returns one matching
assignment record does NOT fail with an AlreadyExists error listing the
matching titles: line 62 builds the title list through the base class
(`Resource.get_names_from_json`, title field "title") instead of the
variant (title field "name"), so a KeyError for "title" is raised while
the message is being formatted.  The zero-match side of the claim does
hold: no matches yield the sentinel True, from which the canonical
title is the given name and the remote id is None. -/
theorem create_command_masks_already_exists :
    ResourceID.canvas_lookup envSearchOneAssignment "CS101" Assignment "+"
        (some "Homework 1") "assignment/+Homework 1" = .error (.keyError "title") ∧
    ResourceID.canvas_lookup envSearchEmpty "CS101" Assignment "+"
        (some "New HW") "assignment/+New HW" = .ok (.bool true) ∧
    ResourceID.parse_canvas_data Assignment (some "New HW") (.bool true) =
      .ok (.str "New HW", .null) :=
  ⟨rfl, rfl, rfl⟩

/-! Claim C3: the Assignment disk round-trip. -/

theorem exceptBindOk {ε α β : Type} (x : α) (f : α → Except ε β) :
    (Except.ok x >>= f) = f x := rfl

/-- The optional allowed_extensions attribute of an Assignment (present
or absent, matching the hasattr check in to_disk). -/
def extList : Option Value → List (String × Value)
  | some e => [("allowed_extensions", e)]
  | none => []

set_option maxHeartbeats 3000000 in
/-- Claim C3: for every Assignment on which both conversions are
defined, from_disk after to_disk reproduces all fields the two
conversions jointly cover byte-identically: the name, the
due/unlock/lock timestamps (after the friendly-date round-trip, stated
as the hypothesis on the date converters), and the settings fields
published, points_possible, grading_type, submission_types,
anonymize_students, anonymous_grading, and the url/html_url field. -/
theorem assignment_round_trip_reproduces_fields (env : ConvEnv)
    (course nm url pub pts gt st due unlock lock an1 an2 desc : Value)
    (ext : Option Value)
    (hdue : env.from_friendly_date (env.to_friendly_date due) = due)
    (hunlock : env.from_friendly_date (env.to_friendly_date unlock) = unlock)
    (hlock : env.from_friendly_date (env.to_friendly_date lock) = lock) :
    ∃ r, Assignment.round_trip env course
        ([("name", nm), ("html_url", url), ("published", pub),
          ("points_possible", pts), ("grading_type", gt), ("submission_types", st),
          ("due_at", due), ("unlock_at", unlock), ("lock_at", lock),
          ("anonymize_students", an1), ("anonymous_grading", an2),
          ("description", desc)] ++ extList ext) = .ok r ∧
      dGet r.attrs "name" = some nm ∧
      dGet r.attrs "due_at" = some due ∧
      dGet r.attrs "unlock_at" = some unlock ∧
      dGet r.attrs "lock_at" = some lock ∧
      dGet r.attrs "published" = some pub ∧
      dGet r.attrs "points_possible" = some pts ∧
      dGet r.attrs "grading_type" = some gt ∧
      dGet r.attrs "submission_types" = some st ∧
      dGet r.attrs "anonymize_students" = some an1 ∧
      dGet r.attrs "anonymous_grading" = some an2 ∧
      dGet r.attrs "html_url" = some url := by
  cases ext with
  | none =>
    have hcomp : Assignment.round_trip env course
        ([("name", nm), ("html_url", url), ("published", pub),
          ("points_possible", pts), ("grading_type", gt), ("submission_types", st),
          ("due_at", due), ("unlock_at", unlock), ("lock_at", lock),
          ("anonymize_students", an1), ("anonymous_grading", an2),
          ("description", desc)] ++ extList none) =
        .ok { attrs := [("name", nm), ("description", env.m2h (env.h2m desc)),
                ("published", pub), ("points_possible", pts), ("grading_type", gt),
                ("due_at", env.from_friendly_date (env.to_friendly_date due)),
                ("unlock_at", env.from_friendly_date (env.to_friendly_date unlock)),
                ("lock_at", env.from_friendly_date (env.to_friendly_date lock)),
                ("anonymize_students", an1), ("anonymous_grading", an2),
                ("submission_types", st), ("html_url", url), ("course", course)],
              unmatched_parameters := [] } := by
      simp only [Assignment.round_trip, Assignment.to_disk, Assignment.from_disk, attrGet,
        req, reqPop, asObj, dUpdate, Resource.init, List.foldl_cons, List.foldl_nil,
        exceptBindOk, dGet, dSet, dDel, extList, List.cons_append, List.nil_append,
        List.append_nil, String.reduceEq, reduceIte, pure, Except.pure]
    rw [hdue, hunlock, hlock] at hcomp
    exact ⟨_, hcomp, rfl, rfl, rfl, rfl, rfl, rfl, rfl, rfl, rfl, rfl, rfl⟩
  | some e =>
    have hcomp : Assignment.round_trip env course
        ([("name", nm), ("html_url", url), ("published", pub),
          ("points_possible", pts), ("grading_type", gt), ("submission_types", st),
          ("due_at", due), ("unlock_at", unlock), ("lock_at", lock),
          ("anonymize_students", an1), ("anonymous_grading", an2),
          ("description", desc)] ++ extList (some e)) =
        .ok { attrs := [("name", nm), ("description", env.m2h (env.h2m desc)),
                ("published", pub), ("points_possible", pts), ("grading_type", gt),
                ("due_at", env.from_friendly_date (env.to_friendly_date due)),
                ("unlock_at", env.from_friendly_date (env.to_friendly_date unlock)),
                ("lock_at", env.from_friendly_date (env.to_friendly_date lock)),
                ("anonymize_students", an1), ("anonymous_grading", an2),
                ("extensions", e), ("submission_types", st), ("html_url", url),
                ("course", course)],
              unmatched_parameters := [] } := by
      simp only [Assignment.round_trip, Assignment.to_disk, Assignment.from_disk, attrGet,
        req, reqPop, asObj, dUpdate, Resource.init, List.foldl_cons, List.foldl_nil,
        exceptBindOk, dGet, dSet, dDel, extList, List.cons_append, List.nil_append,
        List.append_nil, String.reduceEq, reduceIte, pure, Except.pure]
    rw [hdue, hunlock, hlock] at hcomp
    exact ⟨_, hcomp, rfl, rfl, rfl, rfl, rfl, rfl, rfl, rfl, rfl, rfl, rfl⟩

/-- The identity conversion environment: markdown and date conversions
are the identity, so the friendly-date round-trip hypothesis holds by
rfl. -/
def idConv : ConvEnv :=
  { h2m := fun v => v
    m2h := fun v => v
    to_friendly_date := fun v => v
    from_friendly_date := fun v => v }

/-- Witness for claim C3 at a concrete assignment with identity
converters. -/
theorem assignment_round_trip_reproduces_fields_witness :
    ∃ r, Assignment.round_trip idConv (.str "CS101")
        ([("name", .str "HW1"), ("html_url", .str "hw1-url"), ("published", .bool true),
          ("points_possible", .int 10), ("grading_type", .str "points"),
          ("submission_types", .list [.str "online_upload"]),
          ("due_at", .str "2020-01-01"), ("unlock_at", .str "2019-12-01"),
          ("lock_at", .str "2020-01-02"), ("anonymize_students", .bool false),
          ("anonymous_grading", .bool false), ("description", .str "text")] ++ extList none) =
          .ok r ∧
      dGet r.attrs "name" = some (.str "HW1") ∧
      dGet r.attrs "due_at" = some (.str "2020-01-01") ∧
      dGet r.attrs "unlock_at" = some (.str "2019-12-01") ∧
      dGet r.attrs "lock_at" = some (.str "2020-01-02") ∧
      dGet r.attrs "published" = some (.bool true) ∧
      dGet r.attrs "points_possible" = some (.int 10) ∧
      dGet r.attrs "grading_type" = some (.str "points") ∧
      dGet r.attrs "submission_types" = some (.list [.str "online_upload"]) ∧
      dGet r.attrs "anonymize_students" = some (.bool false) ∧
      dGet r.attrs "anonymous_grading" = some (.bool false) ∧
      dGet r.attrs "html_url" = some (.str "hw1-url") :=
  assignment_round_trip_reproduces_fields idConv (.str "CS101") (.str "HW1")
    (.str "hw1-url") (.bool true) (.int 10) (.str "points")
    (.list [.str "online_upload"]) (.str "2020-01-01") (.str "2019-12-01")
    (.str "2020-01-02") (.bool false) (.bool false) (.str "text") none rfl rfl rfl

/-! Claim C4: on-disk path resolution. -/

/-- Claim C4 (code bug, evaluated at the failing input): with two files
of the same safe filename under the category folder,
find_resource_on_disk does not raise the intended configuration error
listing the offending paths: formatting that message evaluates
`self.canonical_category`, but `self` is undefined in the classmethod
(it should be `cls`), so the error actually raised is a NameError for
the name "self".  The zero-match and one-match cases behave as the
claim states: a synthesized path directly under the canonical subfolder
marked new on disk, and the single matching path. -/
theorem duplicate_on_disk_raises_nameerror :
    Resource.find_resource_on_disk Assignment
        (fun _ => ["root/assignments/a/hw.yaml", "root/assignments/b/hw.yaml"])
        "root" "hw.yaml" = .error (.nameError "self") ∧
    Resource.find_resource_on_disk Assignment (fun _ => []) "root" "hw.yaml" =
      .ok (true, "root/assignments/hw.yaml") ∧
    Resource.find_resource_on_disk Assignment
        (fun _ => ["root/assignments/sub/hw.yaml"]) "root" "hw.yaml" =
      .ok (false, "root/assignments/sub/hw.yaml") :=
  ⟨rfl, rfl, rfl⟩

/-! Claim C5: wildcard identifiers. -/

/-- A stub environment for the wildcard theorems: its callbacks are
never reached. -/
def envStub : Env :=
  { search := fun _ _ _ => []
    fetch := fun _ _ => .null
    glob := fun _ => []
    make_safe_filename := fun _ => "file" }

/-- Counterexample to claim C5: constructing the identifier "page/*"
does not succeed without an UnknownCommand error: _parse_type stores
the literal "*" as the command, and _get_canvas_data then matches it
against none of the command prefixes and raises UnknownCommand. -/
theorem wildcard_construction_raises_unknown_command :
    ResourceID.resolve envStub "root" "CS101" "page/*" =
      .error (.waltz (.unknownCommand "*")) := rfl

/-- Claim C5 (amended): for every registered category, parsing
"<category>/*" marks the wildcard: the command is the literal "*" and
the name is unset; but eager identifier construction then raises
UnknownCommand for "*" in the canvas-data step rather than
succeeding. -/
theorem wildcard_parses_but_construction_fails (cat : String) (rt : ResourceType)
    (hreg : (cat, rt) ∈ RESOURCE_CATEGORIES) (env : Env) (root course : String) :
    ResourceID.parse_type (cat ++ "/*") = .ok (cat, "*", none, rt) ∧
    ResourceID.resolve env root course (cat ++ "/*") =
      .error (.waltz (.unknownCommand "*")) := by
  have hlist : RESOURCE_CATEGORIES =
      [("quiz", Quiz), ("quizzes", Quiz), ("page", Page), ("pages", Page),
       ("assignments", Assignment), ("assignment", Assignment), ("a", Assignment)] := rfl
  rw [hlist] at hreg
  simp only [List.mem_cons, List.not_mem_nil, or_false, Prod.mk.injEq] at hreg
  rcases hreg with ⟨rfl, rfl⟩ | ⟨rfl, rfl⟩ | ⟨rfl, rfl⟩ | ⟨rfl, rfl⟩ |
    ⟨rfl, rfl⟩ | ⟨rfl, rfl⟩ | ⟨rfl, rfl⟩ <;> exact ⟨rfl, rfl⟩

/-- Witness for the amended claim C5 at the "page" category. -/
theorem wildcard_parses_but_construction_fails_witness :
    ResourceID.parse_type ("page" ++ "/*") = .ok ("page", "*", none, Page) ∧
    ResourceID.resolve envStub "root" "CS101" ("page" ++ "/*") =
      .error (.waltz (.unknownCommand "*")) :=
  wildcard_parses_but_construction_fails "page" Page (by decide) envStub "root" "CS101"

/-! Claim C6: the category registry. -/

/-- Claim C6 (code bug, evaluated at the failing input): the registry
built at load time does NOT register the outcome category.
ALL_RESOURCES (line 507) lists only Quiz, Page and Assignment, so the
category_names that the Outcome variant declares for itself are never
inserted, and parsing an "outcome/..." identifier fails with
UnknownCategory.  The other three categories and their aliases are
registered as the claim states. -/
theorem outcome_category_not_registered :
    dGet RESOURCE_CATEGORIES "outcome" = none ∧
    dGet RESOURCE_CATEGORIES "outcomes" = none ∧
    ResourceID.parse_type "outcome/?Goals" =
      .error (.waltz (.unknownCategory "outcome" "outcome/?Goals")) ∧
    dGet RESOURCE_CATEGORIES "page" = some Page ∧
    dGet RESOURCE_CATEGORIES "pages" = some Page ∧
    dGet RESOURCE_CATEGORIES "assignment" = some Assignment ∧
    dGet RESOURCE_CATEGORIES "assignments" = some Assignment ∧
    dGet RESOURCE_CATEGORIES "a" = some Assignment ∧
    dGet RESOURCE_CATEGORIES "quiz" = some Quiz ∧
    dGet RESOURCE_CATEGORIES "quizzes" = some Quiz :=
  ⟨rfl, rfl, rfl, rfl, rfl, rfl, rfl, rfl, rfl, rfl⟩

/-! Claims C7 and C8: the backup subsystem. -/

/-- Evaluation of backup_resource when the live file exists: the clock
ticks either way; a backup write happens exactly when the contents
differ from the new version. -/
theorem backup_resource_of_contents (root : String) (rt : ResourceType)
    (filename path new : String) (fs : FS) (c : String)
    (h : dGet fs.files path = some c) :
    Course.backup_resource root rt filename path new fs =
      if c = new then (false, { fs with clock := fs.clock + 1 })
      else
        (true,
          { fs with
              clock := fs.clock + 1
              backups := dSet fs.backups (root ++ "/_backups/" ++ rt.canonical_category ++ "/" ++ filename ++ "/" ++ datetimeName fs.clock ++ rt.extension ++ ".gz") c
              backup_writes := fs.backup_writes + 1 }) := by
  simp only [Course.backup_resource, h]

/-- The starting state for the C7 theorems: the resource file exists
with old contents, no backups yet. -/
def fsSeed : FS :=
  { files := [("root/assignments/hw.yaml", "old")]
    backups := []
    backup_writes := 0
    clock := 0 }

/-- The first of two successive backup_resource calls with identical
new content and no intervening file write. -/
def c7First : Bool × FS :=
  Course.backup_resource "root" Assignment "hw.yaml" "root/assignments/hw.yaml" "new" fsSeed

/-- The second of the two calls, on the state the first one left. -/
def c7Second : Bool × FS :=
  Course.backup_resource "root" Assignment "hw.yaml" "root/assignments/hw.yaml" "new" c7First.2

/-- Counterexample to claim C7: calling backup_resource twice in
succession with identical new content, with nothing else happening in
between, performs TWO backup writes and returns true both times: the
comparison is against the file on disk, which still holds the old
contents, so the second call is not a no-op and does not return
false. -/
theorem backup_resource_twice_writes_twice :
    c7First.1 = true ∧ c7First.2.backup_writes = 1 ∧
    c7Second.1 = true ∧ c7Second.2.backup_writes = 2 :=
  ⟨rfl, rfl, rfl, rfl⟩

/-- Claim C7 (amended): backup_resource compares against the resource
file on disk, so two calls with identical new content perform exactly
one backup write only when the file is rewritten with that content in
between (which is what Course.to_disk does right after backing up):
provided the file exists with differing contents, the first call
writes one compressed backup and returns true, and after the file
write the second call is a no-op that writes nothing and returns
false. -/
theorem backup_once_when_file_rewritten (root : String) (rt : ResourceType)
    (filename path old new : String) (fs : FS)
    (hfile : dGet fs.files path = some old) (hne : old ≠ new) :
    (Course.backup_resource root rt filename path new fs).1 = true ∧
    (Course.backup_resource root rt filename path new fs).2.backup_writes =
      fs.backup_writes + 1 ∧
    (Course.backup_resource root rt filename path new
        (Course.write_resource_file path new
          (Course.backup_resource root rt filename path new fs).2)).1 = false ∧
    (Course.backup_resource root rt filename path new
        (Course.write_resource_file path new
          (Course.backup_resource root rt filename path new fs).2)).2.backup_writes =
      (Course.backup_resource root rt filename path new fs).2.backup_writes := by
  have h1 := backup_resource_of_contents root rt filename path new fs old hfile
  rw [if_neg hne] at h1
  have hfile2 : dGet (Course.write_resource_file path new
      (Course.backup_resource root rt filename path new fs).2).files path = some new := by
    rw [h1]
    exact dGet_dSet_self _ path new
  have h2 := backup_resource_of_contents root rt filename path new _ new hfile2
  rw [if_pos rfl] at h2
  refine ⟨?_, ?_, ?_, ?_⟩
  · rw [h1]
  · rw [h1]
  · rw [h2]
  · rw [h2, h1]
    rfl

/-- Witness for the amended claim C7 on the concrete seed state. -/
theorem backup_once_when_file_rewritten_witness :
    (Course.backup_resource "root" Assignment "hw.yaml" "root/assignments/hw.yaml"
      "new" fsSeed).1 = true ∧
    (Course.backup_resource "root" Assignment "hw.yaml" "root/assignments/hw.yaml"
      "new" fsSeed).2.backup_writes = fsSeed.backup_writes + 1 ∧
    (Course.backup_resource "root" Assignment "hw.yaml" "root/assignments/hw.yaml" "new"
        (Course.write_resource_file "root/assignments/hw.yaml" "new"
          (Course.backup_resource "root" Assignment "hw.yaml" "root/assignments/hw.yaml"
            "new" fsSeed).2)).1 = false ∧
    (Course.backup_resource "root" Assignment "hw.yaml" "root/assignments/hw.yaml" "new"
        (Course.write_resource_file "root/assignments/hw.yaml" "new"
          (Course.backup_resource "root" Assignment "hw.yaml" "root/assignments/hw.yaml"
            "new" fsSeed).2)).2.backup_writes =
      (Course.backup_resource "root" Assignment "hw.yaml" "root/assignments/hw.yaml"
        "new" fsSeed).2.backup_writes :=
  backup_once_when_file_rewritten "root" Assignment "hw.yaml" "root/assignments/hw.yaml"
    "old" "new" fsSeed rfl (by decide)

/-- The starting state for the C8 counterexample: the live file already
holds exactly the content about to be backed up. -/
def fsJson : FS :=
  { files := [("root/assignments/hw.yaml", "SAME")]
    backups := []
    backup_writes := 0
    clock := 0 }

/-- Counterexample to claim C8: backup_json writes its backup even when
the new content equals the previous file on disk byte-for-byte: with
the live file holding exactly the new serialized content, a backup
write still happens, because backup_json performs no comparison at
all. -/
theorem backup_json_writes_despite_unchanged_content :
    dGet fsJson.files "root/assignments/hw.yaml" = some "SAME" ∧
    (Course.backup_json "root" Assignment "hw.yaml" "SAME" fsJson).backup_writes = 1 :=
  ⟨rfl, rfl⟩

/-- Claim C8 (amended): backup_json writes its gzip-compressed,
timestamped backup unconditionally; the write-only-on-change behavior
with byte-exact comparison against the previous file on disk belongs to
backup_resource, which writes nothing and returns false when the file
content equals the new version. -/
theorem backup_json_unconditional (root : String) (rt : ResourceType)
    (filename json_text path c : String) (fs : FS)
    (hfile : dGet fs.files path = some c) :
    (Course.backup_json root rt filename json_text fs).backup_writes =
      fs.backup_writes + 1 ∧
    (Course.backup_resource root rt filename path c fs).1 = false ∧
    (Course.backup_resource root rt filename path c fs).2.backup_writes =
      fs.backup_writes := by
  have h := backup_resource_of_contents root rt filename path c fs c hfile
  rw [if_pos rfl] at h
  refine ⟨rfl, ?_, ?_⟩
  · rw [h]
  · rw [h]

/-- Witness for the amended claim C8 on the concrete state. -/
theorem backup_json_unconditional_witness :
    (Course.backup_json "root" Assignment "hw.yaml" "{}" fsJson).backup_writes =
      fsJson.backup_writes + 1 ∧
    (Course.backup_resource "root" Assignment "hw.yaml" "root/assignments/hw.yaml"
      "SAME" fsJson).1 = false ∧
    (Course.backup_resource "root" Assignment "hw.yaml" "root/assignments/hw.yaml"
      "SAME" fsJson).2.backup_writes = fsJson.backup_writes :=
  backup_json_unconditional "root" Assignment "hw.yaml" "{}"
    "root/assignments/hw.yaml" "SAME" fsJson rfl

/-! Claim C9: constructor fields and the catch-all bag. -/

/-- Counterexample to claim C9: a constructor field that is no
recognized in-memory attribute is NOT retained in the catch-all bag:
__init__ deletes every keyword from kwargs after setting it as an
attribute, so unmatched_parameters is empty and the field lives as a
plain attribute instead. -/
theorem unmatched_parameters_always_empty :
    (Resource.init [("mystery_field", .str "x")]).unmatched_parameters = [] ∧
    dGet (Resource.init [("mystery_field", .str "x")]).attrs "mystery_field" =
      some (.str "x") :=
  ⟨rfl, rfl⟩

/-- Claim C9 (amended): Resource.__init__ retains every constructor
field as an in-memory attribute, so no constructor field is lost, but
the catch-all bag (unmatched_parameters) is always left empty rather
than holding the unrecognized fields. -/
theorem resource_init_keeps_all_fields (kwargs : List (String × Value))
    (hnd : (kwargs.map Prod.fst).Nodup) (k : String) :
    (Resource.init kwargs).unmatched_parameters = [] ∧
    dGet (Resource.init kwargs).attrs k = dGet kwargs k := by
  constructor
  · exact foldl_dDel_self kwargs
  · show dGet (kwargs.foldl (fun a kv => dSet a kv.1 kv.2) []) k = dGet kwargs k
    rw [dGet_foldl_dSet kwargs hnd [] k]
    cases dGet kwargs k <;> rfl

/-- Witness for the amended claim C9 on concrete keyword data. -/
theorem resource_init_keeps_all_fields_witness :
    (Resource.init [("title", .str "T"), ("mystery_field", .int 7)]).unmatched_parameters
      = [] ∧
    dGet (Resource.init
        [("title", .str "T"), ("mystery_field", .int 7)]).attrs "mystery_field" =
      dGet [("title", .str "T"), ("mystery_field", .int 7)] "mystery_field" :=
  resource_init_keeps_all_fields [("title", .str "T"), ("mystery_field", .int 7)]
    (by decide) "mystery_field"

/-! Claim C10: the outcome lookup template filter. -/

/-- Claim C10: for every course and outcome name, the outcome-lookup
filter returned by load_outcome_by_name returns the name string itself
unchanged, rather than raising an error or returning an absent value,
whenever the loaded outcome cache of the course contains no outcome of
that name (the loaded cache being the existing entry when the course is
already cached, else the mapping load_all produces). -/
theorem load_outcome_missing_returns_name {α : Type}
    (cache : List (String × List (String × α))) (load_all_result : List (String × α))
    (course_name outcome_name : String)
    (hmiss : dGet (match dGet cache course_name with
                   | some cc => cc
                   | none => load_all_result) outcome_name = none) :
    Outcome.load_outcome_by_name cache load_all_result course_name outcome_name =
      .ok (Sum.inr outcome_name,
           if (dGet cache course_name).isSome then cache
           else dSet cache course_name load_all_result) := by
  cases hc : dGet cache course_name with
  | some cc =>
    rw [hc] at hmiss
    simp only [Outcome.load_outcome_by_name, hc, hmiss, Option.isSome_some, if_true,
      req, exceptBindOk, pure, Except.pure]
  | none =>
    rw [hc] at hmiss
    simp only [Outcome.load_outcome_by_name, hc, hmiss, Option.isSome_none,
      Bool.false_eq_true, if_false, dGet_dSet_self, req, exceptBindOk, pure, Except.pure]

/-- Witness for claim C10 on an empty cache and empty load result. -/
theorem load_outcome_missing_returns_name_witness :
    Outcome.load_outcome_by_name ([] : List (String × List (String × Nat))) []
        "CS101" "unknown-outcome" =
      .ok (Sum.inr "unknown-outcome",
           if (dGet ([] : List (String × List (String × Nat))) "CS101").isSome then []
           else dSet [] "CS101" []) :=
  load_outcome_missing_returns_name [] [] "CS101" "unknown-outcome" rfl
